import Mathlib

/-!
Shallow embedding of the Simon game core (simon_game_complete) and proofs of
its specified properties.

The embedding mirrors the Python sources:
- `GameLogic` and its operations come from `processes/game_controller.py`
  (class `GameLogic`): `start_new_game`, `check_input`, `next_level`, `reset`.
- The driving loop body of `GameControllerProcess.run` is embedded as
  `handle_event` (one received button event) over a `ControllerState` that also
  carries the shared score / high-score counters, the round-active flag and the
  list of persisted results.
- The per-button debounced edge detector of `processes/input_handler.py`
  (`ButtonMonitor.monitor_button`) is embedded as `monitor_step` / `monitor_run`
  over a sampled level/time trace.
- The bounded non-blocking queues (`mp.Queue` with `put(block=False)` under a
  bare `except: pass`) are embedded as `queue_put_nowait` / `publish_button`.
- Loop guards (`while True`, `while not self.stop_event.is_set()`) are embedded
  as Boolean guard functions run by the fuel-indexed `while_loop`.

Randomness (`random.randint(0, 2)`) is modelled by passing the drawn value as
an explicit argument; where a claim depends on its range, the bound `< 3` is a
hypothesis mirroring `randint`'s contract.
-/

namespace SimonGame

/-- The `state` strings of `GameLogic`: 'WAITING', 'SHOWING', 'PLAYING',
'WIN', 'LOSE'. -/
inductive GState where
  | WAITING
  | SHOWING
  | PLAYING
  | WIN
  | LOSE
deriving DecidableEq, Repr

/-- The mutable fields of the Python class `GameLogic` (the lock is a
mutual-exclusion artifact and carries no state). -/
structure GameLogic where
  sequence : List Nat
  player_input : List Nat
  level : Nat
  state : GState
deriving DecidableEq, Repr

/-- Embeds `GameLogic.__init__`: empty sequence and input, level 0, state 'WAITING'. -/
def GameLogic.init : GameLogic :=
  { sequence := [], player_input := [], level := 0, state := GState.WAITING }

/-- Embeds `GameLogic.add_to_sequence`: appends the drawn LED index
(`random.randint(0, 2)`, passed here as `new_led`) and increments `level`. -/
def add_to_sequence (g : GameLogic) (new_led : Nat) : GameLogic :=
  { g with sequence := g.sequence ++ [new_led], level := g.level + 1 }

/-- Embeds `GameLogic.start_new_game`: clears sequence and input, level 0,
state 'SHOWING', then `add_to_sequence`. -/
def start_new_game (g : GameLogic) (new_led : Nat) : GameLogic :=
  add_to_sequence
    { g with sequence := [], player_input := [], level := 0,
             state := GState.SHOWING } new_led

/-- Return values of `GameLogic.check_input`: 'GAME_OVER', 'WIN_LEVEL',
'CORRECT'. -/
inductive CheckResult where
  | GAME_OVER
  | WIN_LEVEL
  | CORRECT
deriving DecidableEq, Repr

/-- Embeds `GameLogic.check_input`: appends `button_index` to `player_input`, then
reads both lists at `current_pos = len(player_input) - 1`.  The read of
`self.sequence[current_pos]` has no bounds guard in the source; an
out-of-range index raises `IndexError`, modelled as `none`.  (On that path the
append to `player_input` has already happened; `handle_event` accounts for
it.) -/
def check_input (g : GameLogic) (button_index : Nat) :
    Option (CheckResult × GameLogic) :=
  let pi := g.player_input ++ [button_index]
  let current_pos := pi.length - 1
  match pi[current_pos]?, g.sequence[current_pos]? with
  | some pv, some sv =>
    if pv ≠ sv then
      some (CheckResult.GAME_OVER, { g with player_input := pi, state := GState.LOSE })
    else if pi.length = g.sequence.length then
      some (CheckResult.WIN_LEVEL, { g with player_input := [], state := GState.WIN })
    else
      some (CheckResult.CORRECT, { g with player_input := pi })
  | _, _ => none

/-- Embeds `GameLogic.next_level`: `add_to_sequence`, clear `player_input`,
state 'SHOWING'. -/
def next_level (g : GameLogic) (new_led : Nat) : GameLogic :=
  let g2 := add_to_sequence g new_led
  { g2 with player_input := [], state := GState.SHOWING }

/-- Embeds `GameLogic.reset`: clears everything back to 'WAITING'. -/
def reset (g : GameLogic) : GameLogic :=
  { g with sequence := [], player_input := [], level := 0,
           state := GState.WAITING }

/-- The state touched by one `GameControllerProcess.run` iteration: the
`GameLogic` instance, the shared `score` and `high_score` counters
(`mp.Value`), the `game_active` event, and the results persisted through
`DatabaseManager.save_game_result` (as a list of (score, level) records). -/
structure ControllerState where
  logic : GameLogic
  score : Nat
  high_score : Nat
  game_active : Bool
  saved : List (Nat × Nat)
deriving DecidableEq, Repr

/-- The body of `GameControllerProcess.run` for one button event pulled off
`button_queue` (lines 165-195 of `game_controller.py`); `new_led` is the value
`random.randint(0, 2)` would draw if this iteration needs one.  State
'WAITING' starts a new game and sets `game_active`; state 'PLAYING' runs
`check_input` and dispatches on its result ('WIN_LEVEL' adds 10 to the score
and advances the level; 'GAME_OVER' raises the high score when beaten, saves
(score, level), zeroes the score, resets the machine and clears
`game_active`); every other state falls through both branches, leaving the
state untouched.  A `check_input` `IndexError` lands in the bare
`except: pass`, after the append to `player_input` already happened. -/
def handle_event (c : ControllerState) (button_index new_led : Nat) :
    ControllerState :=
  if c.logic.state = GState.WAITING then
    { c with logic := start_new_game c.logic new_led, game_active := true }
  else if c.logic.state = GState.PLAYING then
    match check_input c.logic button_index with
    | some (CheckResult.WIN_LEVEL, g2) =>
      { c with score := c.score + 10, logic := next_level g2 new_led }
    | some (CheckResult.GAME_OVER, g2) =>
      { c with
        high_score := if c.score > c.high_score then c.score else c.high_score,
        saved := c.saved ++ [(c.score, g2.level)],
        score := 0,
        logic := reset g2,
        game_active := false }
    | some (CheckResult.CORRECT, g2) => { c with logic := g2 }
    | none =>
      { c with logic :=
          { c.logic with player_input := c.logic.player_input ++ [button_index] } }
  else c

/-- A `run` iteration in which `button_queue.get(timeout=0.1)` timed out: the
`except: pass` swallows `queue.Empty` and only the snapshot publication and the
sleep run, touching none of this state. -/
def idle_iteration (c : ControllerState) : ControllerState := c

/-- Helper: `check_input` never touches `sequence` or `level`, whichever branch it
takes. -/
theorem check_input_seq_level (g : GameLogic) (b : Nat) (r : CheckResult)
    (g2 : GameLogic) (h : check_input g b = some (r, g2)) :
    g2.sequence = g.sequence ∧ g2.level = g.level := by
  simp only [check_input] at h
  split at h
  · split_ifs at h <;> (cases h; exact ⟨rfl, rfl⟩)
  · cases h

/-- C1: in phase 'PLAYING' with `player_input` a proper prefix of `sequence`,
`check_input b` appends `b` and: on mismatch with the sequence entry at index
`len(player_input)` it returns 'GAME_OVER' with state 'LOSE'; on match
completing the sequence it clears `player_input`, sets state 'WIN' and
returns 'WIN_LEVEL'; on match with input still shorter it returns 'CORRECT'
with the state left at 'PLAYING'. -/
theorem C1_submit_input (g : GameLogic) (b sv : Nat)
    (hstate : g.state = GState.PLAYING)
    (hpre : g.sequence.take g.player_input.length = g.player_input)
    (hlt : g.player_input.length < g.sequence.length)
    (hsv : g.sequence[g.player_input.length]? = some sv) :
    (b ≠ sv →
      check_input g b = some (CheckResult.GAME_OVER,
        { g with player_input := g.player_input ++ [b], state := GState.LOSE })) ∧
    (b = sv → g.player_input.length + 1 = g.sequence.length →
      check_input g b = some (CheckResult.WIN_LEVEL,
        { g with player_input := [], state := GState.WIN })) ∧
    (b = sv → g.player_input.length + 1 ≠ g.sequence.length →
      check_input g b = some (CheckResult.CORRECT,
        { g with player_input := g.player_input ++ [b] }) ∧
      ({ g with player_input := g.player_input ++ [b] } : GameLogic).state =
        GState.PLAYING) := by
  have hcur : (g.player_input ++ [b]).length - 1 = g.player_input.length := by
    simp
  have hget : (g.player_input ++ [b])[g.player_input.length]? = some b :=
    List.getElem?_concat_length g.player_input b
  refine ⟨fun hne => ?_, fun heq hful => ?_, fun heq hsh => ?_⟩
  · simp only [check_input, hcur, hget, hsv]
    simp [hne]
  · simp only [check_input, hcur, hget, hsv]
    simp only [heq, ne_eq, not_true_eq_false, if_false, List.length_append,
      List.length_singleton]
    simp [hful]
  · refine ⟨?_, hstate⟩
    simp only [check_input, hcur, hget, hsv]
    simp only [heq, ne_eq, not_true_eq_false, if_false, List.length_append,
      List.length_singleton]
    simp [hsh]

/-- C1 witness: with sequence `[1, 2]` and accumulated input `[1]`, submitting
`2` completes the sequence: 'WIN_LEVEL', input cleared, state 'WIN'. -/
theorem C1_submit_input_witness :
    check_input { sequence := [1, 2], player_input := [1], level := 2,
                  state := GState.PLAYING } 2 =
      some (CheckResult.WIN_LEVEL,
        { sequence := [1, 2], player_input := [], level := 2,
          state := GState.WIN }) :=
  (C1_submit_input
      { sequence := [1, 2], player_input := [1], level := 2,
        state := GState.PLAYING } 2 2
      rfl (by decide) (by decide) (by decide)).2.1 rfl (by decide)

/-- C2: a button event consumed while the machine is in any state other than
'WAITING' and 'PLAYING' (in particular 'SHOWING') falls through both branches
of the `run` loop: the whole controller state, hence sequence, input, level
and phase, is unchanged. -/
theorem C2_nonplaying_ignored (c : ControllerState) (b new_led : Nat)
    (h1 : c.logic.state ≠ GState.WAITING)
    (h2 : c.logic.state ≠ GState.PLAYING) :
    handle_event c b new_led = c := by
  simp [handle_event, h1, h2]

/-- C2 witness: an event arriving during 'SHOWING' playback leaves the
controller state untouched. -/
theorem C2_nonplaying_ignored_witness :
    handle_event
      { logic := { sequence := [0, 1], player_input := [], level := 2,
                   state := GState.SHOWING },
        score := 10, high_score := 20, game_active := true, saved := [] } 1 0 =
      { logic := { sequence := [0, 1], player_input := [], level := 2,
                   state := GState.SHOWING },
        score := 10, high_score := 20, game_active := true, saved := [] } :=
  C2_nonplaying_ignored _ 1 0 (by decide) (by decide)

/-- The C8 invariant: `level` counts the entries of `sequence`. -/
def LevelInv (g : GameLogic) : Prop := g.level = g.sequence.length

/-- C8: `level = len(sequence)` holds initially (both 0) and is preserved by
`start_new_game`, `check_input` (any result), `next_level` and `reset`. -/
theorem C8_level_inv :
    LevelInv GameLogic.init ∧
    (∀ g new_led, LevelInv g → LevelInv (start_new_game g new_led)) ∧
    (∀ g b r g2, LevelInv g → check_input g b = some (r, g2) → LevelInv g2) ∧
    (∀ g new_led, LevelInv g → LevelInv (next_level g new_led)) ∧
    (∀ g, LevelInv (reset g)) := by
  refine ⟨rfl, fun g l _ => ?_, fun g b r g2 hg h => ?_, fun g l hg => ?_,
    fun g => rfl⟩
  · simp [LevelInv, start_new_game, add_to_sequence]
  · obtain ⟨hs, hl⟩ := check_input_seq_level g b r g2 h
    simpa [LevelInv, hs, hl] using hg
  · simpa [LevelInv, next_level, add_to_sequence] using hg

/-- C8 witness: the invariant, transported along a concrete
`start_new_game` then `check_input` step from the initial state. -/
theorem C8_level_inv_witness :
    LevelInv (start_new_game GameLogic.init 2) ∧
    LevelInv { sequence := [2], player_input := [], level := 1,
               state := GState.WIN } :=
  ⟨C8_level_inv.2.1 GameLogic.init 2 C8_level_inv.1,
   C8_level_inv.2.2.1 (start_new_game GameLogic.init 2) 2 CheckResult.WIN_LEVEL
     { sequence := [2], player_input := [], level := 1, state := GState.WIN }
     (C8_level_inv.2.1 GameLogic.init 2 C8_level_inv.1) (by decide)⟩

/-- C5: when `check_input` answers 'GAME_OVER', the `run` loop raises
`high_score` to `score` exactly when `score` beats it, records
(score, level reached) through `save_game_result` before zeroing the score,
resets the machine to 'WAITING' with everything cleared, and clears
`game_active`. -/
theorem C5_game_over_step (c : ControllerState) (b new_led : Nat)
    (g2 : GameLogic) (hstate : c.logic.state = GState.PLAYING)
    (hres : check_input c.logic b = some (CheckResult.GAME_OVER, g2)) :
    handle_event c b new_led =
      { logic := { sequence := [], player_input := [], level := 0,
                   state := GState.WAITING },
        score := 0,
        high_score := if c.score > c.high_score then c.score else c.high_score,
        game_active := false,
        saved := c.saved ++ [(c.score, c.logic.level)] } := by
  have hlvl : g2.level = c.logic.level :=
    (check_input_seq_level c.logic b CheckResult.GAME_OVER g2 hres).2
  simp [handle_event, hstate, hres, reset, hlvl]

/-- C5 witness: the spec scenario — sequence `[0]`, score 10, high score 0;
pressing `1` loses, raising the high score to 10, saving (10, 1), zeroing the
score and resetting to 'WAITING'. -/
theorem C5_game_over_step_witness :
    handle_event
      { logic := { sequence := [0], player_input := [], level := 1,
                   state := GState.PLAYING },
        score := 10, high_score := 0, game_active := true, saved := [] } 1 0 =
      { logic := { sequence := [], player_input := [], level := 0,
                   state := GState.WAITING },
        score := 0, high_score := 10, game_active := false,
        saved := [(10, 1)] } := by
  simpa using C5_game_over_step
    { logic := { sequence := [0], player_input := [], level := 1,
                 state := GState.PLAYING },
      score := 10, high_score := 0, game_active := true, saved := [] } 1 0
    { sequence := [0], player_input := [1], level := 1, state := GState.LOSE }
    rfl (by decide)

/-- C6: the high score never decreases across a driving-loop step — event or
idle — and it moves only to `score`, and only when `score` strictly exceeds
it. -/
theorem C6_high_score_monotone (c : ControllerState) (b new_led : Nat) :
    c.high_score ≤ (handle_event c b new_led).high_score ∧
    (idle_iteration c).high_score = c.high_score ∧
    ((handle_event c b new_led).high_score = c.high_score ∨
      (c.high_score < c.score ∧
        (handle_event c b new_led).high_score = c.score)) := by
  refine ⟨?_, rfl, ?_⟩ <;>
  · unfold handle_event
    by_cases h1 : c.logic.state = GState.WAITING
    · simp [h1]
    · by_cases h2 : c.logic.state = GState.PLAYING
      · simp only [h1, h2, if_false, if_true, ite_true, ite_false, reduceIte]
        cases hres : check_input c.logic b with
        | none => simp [h1, h2, hres]
        | some rg =>
          obtain ⟨r, g2⟩ := rg
          cases r <;> simp [h1, h2, hres] <;> (try split_ifs) <;> omega
      · simp [h1, h2]

/-- C7: `next_level` appends exactly one entry — the freshly drawn index, in
{0, 1, 2} — to the sequence, leaving the first N−1 entries untouched, clears
`player_input` and sets state 'SHOWING'. -/
theorem C7_next_level (g : GameLogic) (new_led : Nat) (hl : new_led < 3) :
    (next_level g new_led).sequence = g.sequence ++ [new_led] ∧
    new_led ∈ ([0, 1, 2] : List Nat) ∧
    (next_level g new_led).sequence.length = g.sequence.length + 1 ∧
    (next_level g new_led).sequence.take g.sequence.length = g.sequence ∧
    (next_level g new_led).player_input = [] ∧
    (next_level g new_led).state = GState.SHOWING := by
  refine ⟨rfl, ?_, by simp [next_level, add_to_sequence],
    ?_, rfl, rfl⟩
  · interval_cases new_led <;> simp
  · show (g.sequence ++ [new_led]).take g.sequence.length = g.sequence
    exact List.take_left g.sequence [new_led]

/-- C7 witness: advancing from sequence `[2, 0]` with draw `1` yields
`[2, 0, 1]`, the old prefix untouched, input cleared, state 'SHOWING'. -/
theorem C7_next_level_witness :
    (next_level { sequence := [2, 0], player_input := [2, 0], level := 2,
                  state := GState.WIN } 1).sequence = [2, 0, 1] ∧
    (next_level { sequence := [2, 0], player_input := [2, 0], level := 2,
                  state := GState.WIN } 1).player_input = [] ∧
    (next_level { sequence := [2, 0], player_input := [2, 0], level := 2,
                  state := GState.WIN } 1).state = GState.SHOWING := by
  obtain ⟨h1, -, -, -, h5, h6⟩ := C7_next_level
    { sequence := [2, 0], player_input := [2, 0], level := 2,
      state := GState.WIN } 1 (by decide)
  exact ⟨h1, h5, h6⟩

/-- C10: `check_input` reads `sequence[len(player_input) - 1]` after the
append with no guard of its own: whenever the input was strictly shorter than
the sequence beforehand the access is in bounds and it returns a result,
while with an empty sequence (an out-of-phase call the driving loop's phase
check is there to prevent) it raises (`none`). -/
theorem C10_check_input_access :
    (∀ g b, g.player_input.length < g.sequence.length →
      ∃ r g2, check_input g b = some (r, g2)) ∧
    (∀ b, check_input { sequence := [], player_input := [], level := 0,
                        state := GState.PLAYING } b = none) := by
  refine ⟨fun g b hlt => ?_, fun b => rfl⟩
  have hcur : (g.player_input ++ [b]).length - 1 = g.player_input.length := by
    simp
  have hget : (g.player_input ++ [b])[g.player_input.length]? = some b :=
    List.getElem?_concat_length g.player_input b
  obtain ⟨sv, hsv⟩ : ∃ sv, g.sequence[g.player_input.length]? = some sv :=
    ⟨_, List.getElem?_eq_getElem hlt⟩
  simp only [check_input, hcur, hget, hsv]
  split_ifs <;> exact ⟨_, _, rfl⟩

/-- C10 witness: mid-round (input `[1]`, sequence `[1, 2]`) the access is in
bounds and `check_input` answers. -/
theorem C10_check_input_access_witness :
    ∃ r g2,
      check_input { sequence := [1, 2], player_input := [1], level := 2,
                    state := GState.PLAYING } 0 = some (r, g2) :=
  C10_check_input_access.1
    { sequence := [1, 2], player_input := [1], level := 2,
      state := GState.PLAYING } 0 (by decide)

/-! ## Button press queue (`main.py`, `input_handler.py`, `web_server.py`) -/

/-- From `main.py`: `self.button_queue = mp.Queue(maxsize=50)`. -/
def BUTTON_QUEUE_MAXSIZE : Nat := 50

/-- Embeds `queue.put(item, block=False)`: appends when the queue is below
`maxsize`, otherwise raises `queue.Full`, modelled as `none`. -/
def queue_put_nowait (q : List α) (maxsize : Nat) (x : α) : Option (List α) :=
  if q.length < maxsize then some (q ++ [x]) else none

/-- Embeds `InputHandlerProcess.run` publishing one event:
`self.button_queue.put(button_data, block=False)` under `except: pass` — a
full queue drops the event silently and the loop continues. -/
def publish_button (q : List α) (maxsize : Nat) (x : α) : List α :=
  match queue_put_nowait q maxsize x with
  | some q2 => q2
  | none => q

/-- The `press_button` endpoint of `web_server.py`: rejects an index outside
{0, 1, 2} with 400, then performs the same non-blocking put; a full queue
yields a 500 JSON response instead of a propagated exception.  Returns the
HTTP status and the queue after the call. -/
def press_button (q : List Nat) (maxsize : Nat) (button_index : Nat) :
    Nat × List Nat :=
  if button_index ∉ ([0, 1, 2] : List Nat) then (400, q)
  else
    match queue_put_nowait q maxsize button_index with
    | some q2 => (200, q2)
    | none => (500, q)

/-- C9: publishing into the button press queue when it already holds
`maxsize` events neither blocks nor surfaces an error: the input-handler path
drops the event with the queue unchanged (still `maxsize` entries), and the
web path answers 500 with the queue unchanged. -/
theorem C9_full_queue_drop (q : List Nat) (maxsize : Nat) (x : Nat)
    (hfull : q.length = maxsize) :
    publish_button q maxsize x = q ∧
    (publish_button q maxsize x).length = maxsize ∧
    (∀ b, b ∈ ([0, 1, 2] : List Nat) →
      press_button q maxsize b = (500, q)) := by
  have h : ¬ q.length < maxsize := by omega
  refine ⟨?_, ?_, fun b hb => ?_⟩
  · simp [publish_button, queue_put_nowait, h]
  · simp [publish_button, queue_put_nowait, h, hfull]
  · simp [press_button, queue_put_nowait, h, hb]

/-- C9 witness: the queue at its real capacity of 50 — one more publish
leaves it identical, and the web endpoint answers 500. -/
theorem C9_full_queue_drop_witness :
    publish_button (List.replicate 50 0) BUTTON_QUEUE_MAXSIZE 1 =
      List.replicate 50 0 ∧
    (publish_button (List.replicate 50 0) BUTTON_QUEUE_MAXSIZE 1).length = 50 ∧
    press_button (List.replicate 50 0) BUTTON_QUEUE_MAXSIZE 1 =
      (500, List.replicate 50 0) := by
  obtain ⟨h1, h2, h3⟩ := C9_full_queue_drop (List.replicate 50 0)
    BUTTON_QUEUE_MAXSIZE 1 (by simp [BUTTON_QUEUE_MAXSIZE])
  exact ⟨h1, h2, h3 1 (by decide)⟩

/-! ## Debounced edge detector (`input_handler.py`, `ButtonMonitor`) -/

/-- Per-button monitor state: `last_state` (the previously sampled level) and
the button's `last_press_times` entry (time of the last emitted event,
initially 0). -/
structure MonitorState where
  last_state : Bool
  last_press_time : Nat
deriving DecidableEq, Repr

/-- Which sampled level counts as active: button 2 (the Grove module, with
pull-down) detects HIGH — rising edges; buttons 0 and 1 (pull-up) detect
LOW — falling edges. -/
def active_level (active_high : Bool) (level : Bool) : Bool :=
  if active_high then level else !level

/-- Initial monitor state: `last_state` starts at the inactive level
(`False` for button 2, `True` for buttons 0 and 1); `last_press_times`
starts at 0. -/
def monitor_init (active_high : Bool) : MonitorState :=
  { last_state := !active_high, last_press_time := 0 }

/-- One iteration of `ButtonMonitor.monitor_button` on a sampled
(level, time) pair: on a transition into the active level strictly more than
`debounce_delay` after the last emitted event, the press is recorded
(`button_presses.append`) and the press time remembered; in every case
`last_state` becomes the sampled level.  Returns the new state and whether an
event was emitted. -/
def monitor_step (active_high : Bool) (debounce_delay : Nat)
    (s : MonitorState) (level : Bool) (now : Nat) : MonitorState × Bool :=
  if active_level active_high level &&
      !(active_level active_high s.last_state) then
    if now - s.last_press_time > debounce_delay then
      ({ last_state := level, last_press_time := now }, true)
    else ({ s with last_state := level }, false)
  else ({ s with last_state := level }, false)

/-- The sampling loop over a level/time trace, collecting the times of the
emitted press events. -/
def monitor_run (active_high : Bool) (debounce_delay : Nat) :
    MonitorState → List (Bool × Nat) → List Nat
  | _, [] => []
  | s, (level, now) :: rest =>
    (if (monitor_step active_high debounce_delay s level now).2 then [now]
     else []) ++
      monitor_run active_high debounce_delay
        (monitor_step active_high debounce_delay s level now).1 rest

/-- C4: a sample emits a press event exactly when it is a transition into the
active level (rising for the active-high button, falling for active-low)
strictly more than the debounce interval after the last emitted event — and
on no other sample; consequently two active edges within the interval yield
exactly one event and two active edges farther apart yield exactly two. -/
theorem C4_debounce (ah : Bool) (d t1 t2 t3 : Nat) (h1 : t1 > d) :
    (∀ s level now,
      ((monitor_step ah d s level now).2 = true ↔
        (active_level ah level = true ∧
         active_level ah s.last_state = false ∧
         now - s.last_press_time > d)) ∧
      (monitor_step ah d s level now).1.last_state = level ∧
      (monitor_step ah d s level now).1.last_press_time =
        (if (monitor_step ah d s level now).2 then now
         else s.last_press_time)) ∧
    (t3 - t1 ≤ d →
      monitor_run ah d (monitor_init ah) [(ah, t1), (!ah, t2), (ah, t3)] =
        [t1]) ∧
    (t3 - t1 > d →
      monitor_run ah d (monitor_init ah) [(ah, t1), (!ah, t2), (ah, t3)] =
        [t1, t3]) := by
  refine ⟨fun s level now => ?_, fun hle => ?_, fun hgt => ?_⟩
  · cases hA : active_level ah level <;>
      cases hB : active_level ah s.last_state <;>
      by_cases hd : now - s.last_press_time > d <;>
      simp [monitor_step, hA, hB, hd]
  · have hno : ¬ (t3 - t1 > d) := by omega
    cases ah <;>
      simp [monitor_run, monitor_step, monitor_init, active_level, h1, hno]
  · cases ah <;>
      simp [monitor_run, monitor_step, monitor_init, active_level, h1, hgt]

/-- C4 witness: button 2, debounce 200 — first rising edge at t=1000 emits;
a second rising edge at t=1100 (within the interval) does not: exactly one
event. -/
theorem C4_debounce_witness :
    monitor_run true 200 (monitor_init true)
      [(true, 1000), (false, 1050), (true, 1100)] = [1000] :=
  (C4_debounce true 200 1000 1050 1100 (by decide)).2.1 (by decide)

/-! ## Loop guards and the stop signal (C3) -/

/-- Fuel-indexed execution of a polled loop: `guard` is the loop condition as
a function of the sampled stop flag, `stop` the flag's value at each poll.
Counts how many iterations run before the guard first fails (capped by
`fuel`). -/
def while_loop (guard : Bool → Bool) : (Nat → Bool) → Nat → Nat
  | _, 0 => 0
  | stop, fuel + 1 =>
    if guard (stop 0) then
      while_loop guard (fun i => stop (i + 1)) fuel + 1
    else 0

/-- Guard of `ButtonMonitor.monitor_button` (all three buttons): `while True:` — the
loop condition never consults the stop event (the threads are daemons, killed
only when their process exits). -/
def monitor_button_guard (stop : Bool) : Bool := true

/-- Guard of `GameControllerProcess.run`: `while not self.stop_event.is_set()`. -/
def controller_run_guard (stop : Bool) : Bool := !stop

/-- Guard of `InputHandlerProcess.run`: `while not self.stop_event.is_set()`. -/
def input_handler_run_guard (stop : Bool) : Bool := !stop

/-- Guard of `SimonGameSystem.monitor_processes`: `while not self.stop_event.is_set()`. -/
def monitor_processes_guard (stop : Bool) : Bool := !stop

/-- Embeds `GameControllerProcess.show_sequence`: flashes every entry of the
sequence; its body contains no stop check, so the number of flashes performed
is the full sequence length whatever the stop flag holds. -/
def show_sequence_flashes (sequence : List Nat) (stop : Bool) : Nat :=
  sequence.length

/-- A loop exits promptly: with the stop flag already raised at every poll,
it performs at most one further iteration. -/
def exits_promptly (guard : Bool → Bool) : Prop :=
  ∀ fuel, while_loop guard (fun _ => true) fuel ≤ 1

/-- C3 as claimed: every loop in the system — the three edge detectors, the
driving loop, the input consumer, the liveness monitor, and the presenter
playback — observes StopSignal at its next iteration boundary and performs at
most one further iteration's worth of work. -/
def C3_claim : Prop :=
  exits_promptly monitor_button_guard ∧
  exits_promptly controller_run_guard ∧
  exits_promptly input_handler_run_guard ∧
  exits_promptly monitor_processes_guard ∧
  (∀ sequence : List Nat, show_sequence_flashes sequence true ≤ 1)

/-- C3 counterexample: the edge-detector loops run `while True` — with the
stop flag raised, fuel 2 still yields 2 iterations, so the claimed prompt
exit fails (the presenter clause fails too, e.g. on a length-3 sequence). -/
theorem C3_counterexample : ¬ C3_claim := fun h => absurd (h.1 2) (by decide)

/-- C3 amended: once StopSignal is raised, the driving loop, the
input-handler consumer loop and the liveness monitor exit at their next
iteration boundary with no further iterations; the three edge-detector
polling loops never consult StopSignal and keep iterating as long as they are
scheduled, and the round presenter performs every remaining flash of the
sequence regardless of StopSignal. -/
theorem C3_amended_stop_behaviour :
    (∀ fuel, while_loop controller_run_guard (fun _ => true) fuel = 0) ∧
    (∀ fuel, while_loop input_handler_run_guard (fun _ => true) fuel = 0) ∧
    (∀ fuel, while_loop monitor_processes_guard (fun _ => true) fuel = 0) ∧
    (∀ stop fuel, while_loop monitor_button_guard stop fuel = fuel) ∧
    (∀ (sequence : List Nat) (stop : Bool),
      show_sequence_flashes sequence stop = sequence.length) := by
  refine ⟨fun fuel => ?_, fun fuel => ?_, fun fuel => ?_, fun stop fuel => ?_,
    fun sequence stop => rfl⟩
  · cases fuel <;> simp [while_loop, controller_run_guard]
  · cases fuel <;> simp [while_loop, input_handler_run_guard]
  · cases fuel <;> simp [while_loop, monitor_processes_guard]
  · induction fuel generalizing stop with
    | zero => rfl
    | succ n ih => simp [while_loop, monitor_button_guard, ih]

end SimonGame
